import Mathlib

/-!
Verification development for the `uniswapfetcher` position resolution engine.

The Go sources are shallowly embedded:
* `math/big.Int` values are `Int` (arbitrary precision, `Div`/`Mod` are the
  Euclidean `Int.ediv`/`Int.emod`);
* `math/big.Float` values are modelled as exact rationals `ℚ` (every
  `big.Float` value is a dyadic rational; the operations the claims touch —
  comparison, division by the power of two `2^96`, addition, halving, and
  `SetMantExp` — are exact at the precisions the code uses);
* nil-able pointers become `Option`;
* goroutine fan-out is modelled by passing each adapter's outcome to the
  aggregation function as an explicit `Except` value;
* `time.Now()` is modelled by an explicit `now : Int` parameter.
-/

namespace Uniswapfetcher

/-- The exact value of Go's `big.NewFloat(1.0001)`: the IEEE-754 double
nearest to 1.0001, namely `4504049987333233 / 2^52`. -/
def float1_0001 : ℚ := 4504049987333233 / 2 ^ 52

/-- Embeds `tickToPrice` (`uniswap/api_client.go:435-438`, and the identical
closures in `getPositionDetails` and `info_api.go`, which only raise the
precision before the same operation).  Go's
`price.SetMantExp(price, int(tick))` sets the result to `mant × 2^exp`,
so the function computes `1.0001 × 2^tick`. -/
def tickToPrice (tick : Int) : ℚ := float1_0001 * (2 : ℚ) ^ tick

/-- C1: the code's tick-to-price conversion evaluated at tick 0: it returns
the floating-point value of 1.0001 (because `SetMantExp` multiplies the
mantissa `1.0001` by `2^tick` instead of raising `1.0001` to the tick), which
is not 1.  This contradicts the claim `tickToPrice(t) = 1.0001^t` and the
code's own comment stating `price = 1.0001^tick`. -/
theorem tickToPrice_zero_ne_one :
    tickToPrice 0 = 4504049987333233 / 2 ^ 52 ∧ tickToPrice 0 ≠ 1 := by
  constructor
  · simp [tickToPrice, float1_0001]
  · simp only [tickToPrice, float1_0001, zpow_zero, mul_one]
    norm_num

/-- C8: on the code's actual tick-to-price function (`1.0001 × 2^tick`),
the price at every tick is strictly positive, and prices are strictly
increasing in the tick. -/
theorem tickToPrice_pos_strictMono :
    (∀ t : Int, 0 < tickToPrice t) ∧
    (∀ t1 t2 : Int, t1 < t2 → tickToPrice t1 < tickToPrice t2) := by
  have hc : (0 : ℚ) < float1_0001 := by norm_num [float1_0001]
  constructor
  · intro t
    exact mul_pos hc (zpow_pos (by norm_num) t)
  · intro t1 t2 h
    have h2 : (2 : ℚ) ^ t1 < (2 : ℚ) ^ t2 :=
      zpow_lt_zpow_right₀ (by norm_num) h
    exact mul_lt_mul_of_pos_left h2 hc

/-- Witness for C8 at concrete ticks 0 and 1. -/
theorem tickToPrice_pos_strictMono_witness :
    0 < tickToPrice 0 ∧ tickToPrice 0 < tickToPrice 1 :=
  ⟨tickToPrice_pos_strictMono.1 0,
   tickToPrice_pos_strictMono.2 0 1 (by norm_num)⟩

/-- Left-pads a digit list with `'0'` characters up to `decimals` digits:
embeds the loop `for len(fracStr) < decimals { fracStr = "0" + fracStr }`
in `formatBigInt` (`uniswap/client.go:172-175`). -/
def padLeftZeros (decimals : Nat) (s : List Char) : List Char :=
  List.replicate (decimals - s.length) '0' ++ s

/-- Strips trailing `'0'` characters: embeds the loop
`for len(fracStr) > 0 && fracStr[len(fracStr)-1] == '0' { fracStr = fracStr[:len(fracStr)-1] }`
in `formatBigInt` (`uniswap/client.go:177-180`). -/
def trimTrailingZeros (s : List Char) : List Char :=
  (s.reverse.dropWhile (fun c => c == '0')).reverse

/-- Embeds `formatBigInt` (`uniswap/client.go:150-188`).  A nil `*big.Int`
is `none`.  Go's `big.Int.Div`/`Mod` are Euclidean division, hence
`Int.ediv`/`Int.emod`. -/
def formatBigInt : Option Int → Nat → String
  | none, _ => "0"
  | some n, decimals =>
    if decimals = 0 then toString n
    else
      let divisor : Int := 10 ^ decimals
      let intPart := Int.ediv n divisor
      let remainder := Int.emod n divisor
      let fracStr := trimTrailingZeros (padLeftZeros decimals (toString remainder).data)
      if 0 < fracStr.length then toString intPart ++ "." ++ String.mk fracStr
      else toString intPart

lemma dropWhile_zero_replicate (k : Nat) :
    (List.replicate k '0').dropWhile (fun c => c == '0') = [] := by
  induction k with
  | zero => rfl
  | succ n ih => simp [List.replicate, List.dropWhile, ih]

lemma trimTrailingZeros_all_zero (k : Nat) :
    trimTrailingZeros (List.replicate k '0') = [] := by
  simp [trimTrailingZeros, List.reverse_replicate, dropWhile_zero_replicate]

/-- C4: the amount formatter splits the raw integer by `10^decimals` into an
integer part and a zero-left-padded, trailing-zero-stripped fractional part;
a clean multiple of `10^decimals` renders with no fractional part;
`decimals = 0` renders the raw integer unchanged; a nil amount renders as
`"0"`; and the spec's four concrete examples hold. -/
theorem formatBigInt_spec :
    (∀ (n : Int) (d : Nat), d ≠ 0 →
      formatBigInt (some n) d =
        (let fracStr := trimTrailingZeros
            (padLeftZeros d (toString (Int.emod n (10 ^ d))).data)
         if 0 < fracStr.length then
           toString (Int.ediv n (10 ^ d)) ++ "." ++ String.mk fracStr
         else toString (Int.ediv n (10 ^ d)))) ∧
    (∀ (n : Int) (d : Nat), Int.emod n (10 ^ d) = 0 →
      formatBigInt (some n) d = toString (Int.ediv n (10 ^ d))) ∧
    (∀ n : Int, formatBigInt (some n) 0 = toString n) ∧
    (∀ d : Nat, formatBigInt none d = "0") ∧
    formatBigInt (some 1500000) 6 = "1.5" ∧
    formatBigInt (some 1000000) 6 = "1" ∧
    formatBigInt (some 0) 18 = "0" := by
  refine ⟨?_, ?_, ?_, ?_, by decide, by decide, by decide⟩
  · intro n d hd
    simp [formatBigInt, hd]
  · intro n d h
    rcases Nat.eq_zero_or_pos d with hd | hd
    · subst hd
      have h1 : Int.ediv n (10 ^ 0) = n := Int.ediv_one n
      rw [h1]
      rfl
    · have hd0 : d ≠ 0 := Nat.pos_iff_ne_zero.mp hd
      have hrem : toString (Int.emod n (10 ^ d)) = "0" := by rw [h]; rfl
      simp only [formatBigInt, if_neg hd0, hrem]
      have hpad : padLeftZeros d ("0".data) = List.replicate d '0' := by
        have : ("0".data) = List.replicate 1 '0' := rfl
        rw [this, padLeftZeros, ← List.replicate_add]
        congr 1
        simp
        omega
      rw [hpad, trimTrailingZeros_all_zero]
      simp
  · intro n
    simp [formatBigInt]
  · intro d
    rfl

/-- Witness for C4: the general splitting clause at `n = 2500000`, `d = 6`,
and the clean-multiple clause at `n = 3000000`, `d = 6`. -/
theorem formatBigInt_spec_witness :
    (formatBigInt (some 2500000) 6 =
      (let fracStr := trimTrailingZeros
          (padLeftZeros 6 (toString (Int.emod 2500000 (10 ^ 6))).data)
       if 0 < fracStr.length then
         toString (Int.ediv 2500000 (10 ^ 6)) ++ "." ++ String.mk fracStr
       else toString (Int.ediv 2500000 (10 ^ 6)))) ∧
    formatBigInt (some 3000000) 6 = toString (Int.ediv 3000000 (10 ^ 6)) :=
  ⟨formatBigInt_spec.1 2500000 6 (by decide),
   formatBigInt_spec.2.1 3000000 6 (by decide)⟩

/-- Embeds `PositionVersion` (`types.go`): the protocol version enum. -/
inductive PositionVersion where
  | v3
  | v4
deriving Repr, DecidableEq

/-- Embeds `Token` (`types.go`): an ERC20 token.  Addresses are kept as
their hex strings. -/
structure Token where
  address : String
  symbol : String
  decimals : Nat
deriving Repr, DecidableEq

/-- Embeds `Position` (`types.go`).  `*big.Int` fields are `Option Int`
(nil is `none`), `*big.Float` fields are `Option ℚ`, `time.Time` is an
`Int` unix timestamp.  The `DepositedToken0/1` and `WithdrawnToken0/1`
ledger fields are the ones the subgraph parsers populate. -/
structure Position where
  id : Int
  version : PositionVersion
  owner : String
  token0 : Token
  token1 : Token
  amount0 : Option Int
  amount1 : Option Int
  feeTier : Nat
  createdAt : Int
  tickLower : Int
  tickUpper : Int
  liquidity : Option Int
  depositedToken0 : Option Int
  depositedToken1 : Option Int
  withdrawnToken0 : Option Int
  withdrawnToken1 : Option Int
  unclaimedFees0 : Option Int
  unclaimedFees1 : Option Int
  priceLower : Option ℚ
  priceUpper : Option ℚ
  currentPrice : Option ℚ
deriving Repr

/-- Embeds the in-range computation of `FormatPositionSummary`
(`uniswap/client.go:132-135`): `inRange := false;
if CurrentPrice != nil && PriceLower != nil && PriceUpper != nil {
inRange = CurrentPrice.Cmp(PriceLower) >= 0 && CurrentPrice.Cmp(PriceUpper) <= 0 }`. -/
def inRangeCheck (currentPrice priceLower priceUpper : Option ℚ) : Bool :=
  match currentPrice, priceLower, priceUpper with
  | some cp, some pl, some pu => decide (pl ≤ cp) && decide (cp ≤ pu)
  | _, _, _ => false

/-- The `InRange` field of the summary `FormatPositionSummary` produces
(`uniswap/client.go:131-147`). -/
def formatPositionSummaryInRange (position : Position) : Bool :=
  inRangeCheck position.currentPrice position.priceLower position.priceUpper

/-- C5: the in-range flag of `FormatPositionSummary` is true exactly when
the current price and both bounds are present and
`priceLower <= currentPrice <= priceUpper`, with both comparisons
inclusive; when any operand is absent the flag is false (and the function
is total, so no error is raised). -/
theorem formatPositionSummaryInRange_iff (position : Position) :
    formatPositionSummaryInRange position = true ↔
    ∃ cp pl pu : ℚ, position.currentPrice = some cp ∧
      position.priceLower = some pl ∧ position.priceUpper = some pu ∧
      pl ≤ cp ∧ cp ≤ pu := by
  unfold formatPositionSummaryInRange
  rcases hc : position.currentPrice with _ | cp <;>
    rcases hl : position.priceLower with _ | pl <;>
      rcases hu : position.priceUpper with _ | pu <;>
        simp [inRangeCheck, and_assoc]

/-- The optional leading sign accepted by `big.Int.SetString` and
`strconv.ParseInt`: returns (negative?, remaining characters). -/
def dropSignChars : List Char → Bool × List Char
  | '-' :: cs => (true, cs)
  | '+' :: cs => (false, cs)
  | cs => (false, cs)

/-- Base-10 value of a digit list (most significant first). -/
def digitsValNat (l : List Char) : Nat :=
  l.foldl (fun a c => 10 * a + (c.toNat - '0'.toNat)) 0

/-- Embeds `stringToBigInt` (`uniswap/api_client.go:423-427`):
`n := new(big.Int); n.SetString(s, 10); return n`.  The boolean result of
`SetString` is discarded, so the returned value is whatever the base-10
scanner left in `n`: the value of the longest valid `[+-]?digits` prefix
of `s`, and 0 (the fresh `big.Int`) when there is no digit prefix. -/
def stringToBigInt (s : String) : Int :=
  let (neg, rest) := dropSignChars s.data
  let v : Int := (digitsValNat (rest.takeWhile Char.isDigit) : Int)
  if neg then -v else v

/-- `s` has no base-10 digits after its optional sign, so the scanner
inside `big.Int.SetString` consumes nothing. -/
def hasNoDigits (s : String) : Bool :=
  ((dropSignChars s.data).2.takeWhile Char.isDigit).isEmpty

/-- Models Go's `strconv.ParseUint(s, 10, bitSize)` with the error
discarded (`v, _ := ...`): the value for a valid all-digit string, the
maximum `2^bitSize - 1` on range overflow, and 0 on a syntax error. -/
def parseUintGo (s : String) (bitSize : Nat) : Nat :=
  if s.data.isEmpty || !s.data.all Char.isDigit then 0
  else
    let v := digitsValNat s.data
    if v < 2 ^ bitSize then v else 2 ^ bitSize - 1

/-- Models Go's `strconv.ParseInt(s, 10, bitSize)`: `none` on a syntax
error, otherwise the value clamped to the signed `bitSize`-bit range.
(Go also flags the range error; no claim depends on out-of-range inputs,
which none of the upstream fields produce.) -/
def parseIntGoResult (s : String) (bitSize : Nat) : Option Int :=
  let (neg, rest) := dropSignChars s.data
  if rest.isEmpty || !rest.all Char.isDigit then none
  else
    let v := digitsValNat rest
    some (if neg then
            if v ≤ 2 ^ (bitSize - 1) then -(v : Int) else -((2 : Int) ^ (bitSize - 1))
          else
            if v < 2 ^ (bitSize - 1) then (v : Int) else (2 : Int) ^ (bitSize - 1) - 1)

/-- `strconv.ParseInt` with the error discarded: 0 on syntax error. -/
def parseIntGo (s : String) (bitSize : Nat) : Int :=
  (parseIntGoResult s bitSize).getD 0

/-- Go's `int64(u)` conversion of a `uint64`: two's-complement wraparound. -/
def int64OfUint64 (n : Nat) : Int :=
  if n < 2 ^ 63 then (n : Int) else (n : Int) - 2 ^ 64

/-- Plain decimal parses (`[+-]?digits[.digits]?`) accepted by
`big.Float.SetString`; `none` for any other form.  (`big.Float` rounds to
its mantissa precision and leaves the receiver undefined on failure;
neither detail is load-bearing for the claims, which never inspect a
parsed float value.) -/
def parseDecimalRat (s : String) : Option ℚ :=
  let (neg, rest) := dropSignChars s.data
  let intDigits := rest.takeWhile Char.isDigit
  let rest2 := rest.drop intDigits.length
  let sign : ℚ := if neg then -1 else 1
  match rest2 with
  | [] => if intDigits.isEmpty then none else some (sign * (digitsValNat intDigits : ℚ))
  | '.' :: cs =>
    let fracDigits := cs.takeWhile Char.isDigit
    if !(cs.drop fracDigits.length).isEmpty then none
    else if intDigits.isEmpty && fracDigits.isEmpty then none
    else some (sign * ((digitsValNat intDigits : ℚ) +
      (digitsValNat fracDigits : ℚ) / 10 ^ fracDigits.length))
  | _ => none

/-- Embeds `stringToBigFloat` (`uniswap/api_client.go:429-433`):
`f := new(big.Float); f.SetString(s); return f`; the undefined value a
failed `SetString` leaves behind is modelled as 0. -/
def stringToBigFloat (s : String) : ℚ :=
  (parseDecimalRat s).getD 0

/-- Embeds `calculateCurrentPrice` (`uniswap/api_client.go:440-445`): the
same `SetString` parse at precision 256. -/
def calculateCurrentPrice (priceStr : String) : ℚ :=
  (parseDecimalRat priceStr).getD 0

/-- `common.HexToAddress` only re-encodes the hex string as a 20-byte
address; the claims never inspect addresses, so it is carried through
as the string itself. -/
def hexToAddress (s : String) : String := s

/-- Raw token sub-object of the GraphQL/REST responses (all strings). -/
structure RawTokenData where
  id : String
  symbol : String
  decimals : String
deriving Repr, DecidableEq

/-- Raw pool sub-object of the V3 subgraph response. -/
structure RawPoolV3 where
  feeTier : String
  token0Price : String
  token1Price : String
deriving Repr, DecidableEq

/-- One element of `PositionData.Positions`
(`uniswap/api_client.go:41-70`): the raw V3 subgraph position record. -/
structure RawPositionV3 where
  id : String
  owner : String
  depositedToken0 : String
  depositedToken1 : String
  withdrawnToken0 : String
  withdrawnToken1 : String
  collectedFeesToken0 : String
  collectedFeesToken1 : String
  liquidity : String
  tickLower : String
  tickUpper : String
  pool : RawPoolV3
  token0 : RawTokenData
  token1 : RawTokenData
deriving Repr, DecidableEq

/-- Per-record body of the loop in `parsePositionData`
(`uniswap/api_client.go:300-349`).  `time.Now()` is the `now` parameter.
The Go struct literal does not set `WithdrawnToken0/1`, so those fields
stay nil. -/
def parseV3Record (version : PositionVersion) (now : Int) (p : RawPositionV3) : Position :=
  let token0Decimals := parseUintGo p.token0.decimals 8
  let token1Decimals := parseUintGo p.token1.decimals 8
  let feeTier := parseUintGo p.pool.feeTier 32
  let tickLower := parseIntGo p.tickLower 64
  let tickUpper := parseIntGo p.tickUpper 64
  let depositedToken0 := stringToBigInt p.depositedToken0
  let depositedToken1 := stringToBigInt p.depositedToken1
  let withdrawnToken0 := stringToBigInt p.withdrawnToken0
  let withdrawnToken1 := stringToBigInt p.withdrawnToken1
  let amount0 := depositedToken0 - withdrawnToken0
  let amount1 := depositedToken1 - withdrawnToken1
  { id := stringToBigInt p.id
    version := version
    owner := hexToAddress p.owner
    token0 := { address := hexToAddress p.token0.id, symbol := p.token0.symbol,
                decimals := token0Decimals }
    token1 := { address := hexToAddress p.token1.id, symbol := p.token1.symbol,
                decimals := token1Decimals }
    amount0 := some amount0
    amount1 := some amount1
    depositedToken0 := some (stringToBigInt p.depositedToken0)
    depositedToken1 := some (stringToBigInt p.depositedToken1)
    withdrawnToken0 := none
    withdrawnToken1 := none
    unclaimedFees0 := some (stringToBigInt p.collectedFeesToken0)
    unclaimedFees1 := some (stringToBigInt p.collectedFeesToken1)
    feeTier := feeTier
    createdAt := now
    tickLower := tickLower
    tickUpper := tickUpper
    liquidity := some (stringToBigInt p.liquidity)
    currentPrice := some (stringToBigFloat p.pool.token0Price)
    priceLower := some (tickToPrice tickLower)
    priceUpper := some (tickToPrice tickUpper) }

/-- Embeds `parsePositionData` (`uniswap/api_client.go:300-350`): one
output position per input record. -/
def parsePositionData (data : List RawPositionV3) (version : PositionVersion)
    (now : Int) : List Position :=
  data.map (parseV3Record version now)

/-- Raw pool sub-object of the V4 subgraph response. -/
structure RawPoolV4 where
  token0 : RawTokenData
  token1 : RawTokenData
  sqrtPrice : String
  tick : String
  liquidity : String
  feeTier : String
deriving Repr, DecidableEq

/-- One element of `V4PositionData.Positions`
(`uniswap/api_client.go:72-104`). -/
structure RawPositionV4 where
  id : String
  owner : String
  createdAtTimestamp : String
  pool : RawPoolV4
  liquidity : String
  tickLower : String
  tickUpper : String
  depositedToken0 : String
  depositedToken1 : String
  withdrawnToken0 : String
  withdrawnToken1 : String
  collectedToken0 : String
  collectedToken1 : String
deriving Repr, DecidableEq

/-- Per-record body of the loop in `parseV4PositionData`
(`uniswap/api_client.go:352-415`).  A timestamp parse failure falls back
to `time.Now()` = `now`; `PriceLower`/`PriceUpper` are not set (nil). -/
def parseV4Record (now : Int) (p : RawPositionV4) : Position :=
  let token0Decimals := parseUintGo p.pool.token0.decimals 8
  let token1Decimals := parseUintGo p.pool.token1.decimals 8
  let feeTier := parseUintGo p.pool.feeTier 32
  let timestamp := match parseIntGoResult p.createdAtTimestamp 64 with
    | some t => t
    | none => now
  let tickLower := parseIntGo p.tickLower 64
  let tickUpper := parseIntGo p.tickUpper 64
  let liquidity := stringToBigInt p.liquidity
  let depositedToken0 := stringToBigInt p.depositedToken0
  let depositedToken1 := stringToBigInt p.depositedToken1
  let withdrawnToken0 := stringToBigInt p.withdrawnToken0
  let withdrawnToken1 := stringToBigInt p.withdrawnToken1
  let collectedToken0 := stringToBigInt p.collectedToken0
  let collectedToken1 := stringToBigInt p.collectedToken1
  let amount0 := depositedToken0 - withdrawnToken0
  let amount1 := depositedToken1 - withdrawnToken1
  { id := stringToBigInt p.id
    version := PositionVersion.v4
    owner := hexToAddress p.owner
    token0 := { address := hexToAddress p.pool.token0.id, symbol := p.pool.token0.symbol,
                decimals := token0Decimals }
    token1 := { address := hexToAddress p.pool.token1.id, symbol := p.pool.token1.symbol,
                decimals := token1Decimals }
    amount0 := some amount0
    amount1 := some amount1
    unclaimedFees0 := some collectedToken0
    unclaimedFees1 := some collectedToken1
    feeTier := feeTier
    createdAt := timestamp
    tickLower := tickLower
    tickUpper := tickUpper
    liquidity := some liquidity
    currentPrice := some (calculateCurrentPrice p.pool.sqrtPrice)
    depositedToken0 := some depositedToken0
    depositedToken1 := some depositedToken1
    withdrawnToken0 := some withdrawnToken0
    withdrawnToken1 := some withdrawnToken1
    priceLower := none
    priceUpper := none }

/-- Embeds `parseV4PositionData` (`uniswap/api_client.go:352-415`). -/
def parseV4PositionData (data : List RawPositionV4) (now : Int) : List Position :=
  data.map (parseV4Record now)

/-- Raw pool sub-object of the Info API response
(`uniswap/info_api.go:106-121`). -/
structure RawInfoPool where
  id : String
  feeTier : String
  token0 : RawTokenData
  token1 : RawTokenData
  sqrtPrice : String
  tick : String
deriving Repr, DecidableEq

/-- One element of the Info API position array
(`uniswap/info_api.go:102-133`). -/
structure RawInfoPosition where
  id : String
  owner : String
  pool : RawInfoPool
  tickLower : String
  tickUpper : String
  liquidity : String
  depositedToken0 : String
  depositedToken1 : String
  withdrawnToken0 : String
  withdrawnToken1 : String
  collectedFeesToken0 : String
  collectedFeesToken1 : String
  createdAtTimestamp : String
deriving Repr, DecidableEq

/-- Per-record conversion of the loop in `getV3Positions`
(`uniswap/info_api.go:144-234`).  The id goes through
`uint64` then `int64` (`big.NewInt(int64(positionID))`); the ticks use
`strconv.ParseInt(..., 10, 32)`; deposited/withdrawn ledgers are parsed
for the amount calculation but not stored on the struct literal; all
three prices come from the same `tickToPrice` closure. -/
def parseInfoV3Record (p : RawInfoPosition) : Position :=
  let token0Decimals := parseUintGo p.pool.token0.decimals 8
  let token1Decimals := parseUintGo p.pool.token1.decimals 8
  let positionID := parseUintGo p.id 64
  let tickLower := parseIntGo p.tickLower 32
  let tickUpper := parseIntGo p.tickUpper 32
  let feeTier := parseUintGo p.pool.feeTier 32
  let liquidity := stringToBigInt p.liquidity
  let depositedToken0 := stringToBigInt p.depositedToken0
  let depositedToken1 := stringToBigInt p.depositedToken1
  let withdrawnToken0 := stringToBigInt p.withdrawnToken0
  let withdrawnToken1 := stringToBigInt p.withdrawnToken1
  let amount0 := depositedToken0 - withdrawnToken0
  let amount1 := depositedToken1 - withdrawnToken1
  let unclaimedFees0 := stringToBigInt p.collectedFeesToken0
  let unclaimedFees1 := stringToBigInt p.collectedFeesToken1
  let timestampInt := parseIntGo p.createdAtTimestamp 64
  let currentTick := parseIntGo p.pool.tick 64
  { id := int64OfUint64 positionID
    version := PositionVersion.v3
    owner := hexToAddress p.owner
    token0 := { address := hexToAddress p.pool.token0.id, symbol := p.pool.token0.symbol,
                decimals := token0Decimals }
    token1 := { address := hexToAddress p.pool.token1.id, symbol := p.pool.token1.symbol,
                decimals := token1Decimals }
    amount0 := some amount0
    amount1 := some amount1
    feeTier := feeTier
    createdAt := timestampInt
    tickLower := tickLower
    tickUpper := tickUpper
    liquidity := some liquidity
    unclaimedFees0 := some unclaimedFees0
    unclaimedFees1 := some unclaimedFees1
    priceLower := some (tickToPrice tickLower)
    priceUpper := some (tickToPrice tickUpper)
    currentPrice := some (tickToPrice currentTick)
    depositedToken0 := none
    depositedToken1 := none
    withdrawnToken0 := none
    withdrawnToken1 := none }

/-- Position-list conversion inside `getV3Positions`
(`uniswap/info_api.go:142-234`). -/
def infoAPIV3Positions (data : List RawInfoPosition) : List Position :=
  data.map parseInfoV3Record

/-- C6: in all three ledger-reporting parsers — the V3 subgraph parser,
the V4 subgraph parser, and the Info API parser — the produced position's
`amount0`/`amount1` are exactly the parsed `depositedToken_i` minus the
parsed `withdrawnToken_i`. -/
theorem amounts_are_deposited_minus_withdrawn :
    (∀ (version : PositionVersion) (now : Int) (p : RawPositionV3),
      (parseV3Record version now p).amount0 =
        some (stringToBigInt p.depositedToken0 - stringToBigInt p.withdrawnToken0) ∧
      (parseV3Record version now p).amount1 =
        some (stringToBigInt p.depositedToken1 - stringToBigInt p.withdrawnToken1)) ∧
    (∀ (now : Int) (p : RawPositionV4),
      (parseV4Record now p).amount0 =
        some (stringToBigInt p.depositedToken0 - stringToBigInt p.withdrawnToken0) ∧
      (parseV4Record now p).amount1 =
        some (stringToBigInt p.depositedToken1 - stringToBigInt p.withdrawnToken1)) ∧
    (∀ p : RawInfoPosition,
      (parseInfoV3Record p).amount0 =
        some (stringToBigInt p.depositedToken0 - stringToBigInt p.withdrawnToken0) ∧
      (parseInfoV3Record p).amount1 =
        some (stringToBigInt p.depositedToken1 - stringToBigInt p.withdrawnToken1)) :=
  ⟨fun _ _ _ => ⟨rfl, rfl⟩, fun _ _ => ⟨rfl, rfl⟩, fun _ => ⟨rfl, rfl⟩⟩

/-- Embeds `PositionRequest` (`types.go`). -/
structure PositionRequest where
  walletAddress : String
  includeV3 : Bool
  includeV4 : Bool
deriving Repr, DecidableEq

/-- The error an adapter goroutine stored, if any (`v3Err`/`v4Err` in
`UniswapClient.GetPositions`). -/
def adapterError : Except String (List Position) → Option String
  | .error e => some e
  | .ok _ => none

/-- The positions an adapter goroutine appended on success; a failed
adapter appends nothing (`uniswap/client.go:76-84`). -/
def okPositions : Except String (List Position) → List Position
  | .ok ps => ps
  | .error _ => []

/-- Embeds `UniswapClient.GetPositions` (`uniswap/client.go:59-123`).
Each requested adapter's outcome is passed in explicitly (the goroutines
only produce these two values); the merged list is V3 then V4 — the
goroutine interleaving only permutes this concatenation and no claim
depends on order.  An error is returned exactly when `v3Err != nil &&
v4Err != nil` (`uniswap/client.go:113-114`); in every other case the
accumulated positions are returned with a nil error. -/
def getPositions (req : PositionRequest)
    (v3res v4res : Except String (List Position)) :
    Except String (List Position) :=
  let v3Err := if req.includeV3 then adapterError v3res else none
  let v4Err := if req.includeV4 then adapterError v4res else none
  let positions :=
    (if req.includeV3 then okPositions v3res else []) ++
    (if req.includeV4 then okPositions v4res else [])
  match v3Err, v4Err with
  | some e3, some e4 =>
    .error ("failed to fetch positions: V3: " ++ e3 ++ ", V4: " ++ e4)
  | _, _ => .ok positions

/-- C2 counterexample: a request for V3 only whose single requested
adapter fails.  Every requested adapter failed, yet `GetPositions`
returns a nil error and an empty list instead of the error the claim
requires. -/
theorem getPositions_single_adapter_failure :
    (⟨"0xwallet", true, false⟩ : PositionRequest).includeV3 = true ∧
    (⟨"0xwallet", true, false⟩ : PositionRequest).includeV4 = false ∧
    getPositions ⟨"0xwallet", true, false⟩
      (.error "dial tcp: connection refused") (.ok []) = .ok [] :=
  ⟨rfl, rfl, rfl⟩

/-- C2 amended: `GetPositions` fails only when BOTH versions were
requested and BOTH adapters failed, and then the error enumerates the two
failures and no positions are returned; in every other case — including
the case where the only requested adapter failed — it returns the
requested adapters' successful positions (possibly empty) with no
error. -/
theorem getPositions_merge_policy (req : PositionRequest)
    (v3res v4res : Except String (List Position)) :
    (∀ e3 e4 : String, req.includeV3 = true → req.includeV4 = true →
      v3res = .error e3 → v4res = .error e4 →
      getPositions req v3res v4res =
        .error ("failed to fetch positions: V3: " ++ e3 ++ ", V4: " ++ e4)) ∧
    (¬ (req.includeV3 = true ∧ req.includeV4 = true ∧
        (∃ e3, v3res = .error e3) ∧ (∃ e4, v4res = .error e4)) →
      getPositions req v3res v4res =
        .ok ((if req.includeV3 then okPositions v3res else []) ++
             (if req.includeV4 then okPositions v4res else []))) := by
  constructor
  · intro e3 e4 h3 h4 hv3 hv4
    subst hv3; subst hv4
    simp [getPositions, h3, h4, adapterError]
  · intro hnot
    rcases h3 : req.includeV3 with _ | _ <;> rcases h4 : req.includeV4 with _ | _ <;>
      rcases v3res with e3 | ps3 <;> rcases v4res with e4 | ps4 <;>
        simp_all [getPositions, adapterError, okPositions]

/-- Witness for C2's amended theorem: both adapters requested and failed
gives the enumerated error; a lone failed V3 request gives a nil error. -/
theorem getPositions_merge_policy_witness :
    getPositions ⟨"0xabc", true, true⟩ (.error "e3") (.error "e4") =
      .error ("failed to fetch positions: V3: " ++ "e3" ++ ", V4: " ++ "e4") ∧
    getPositions ⟨"0xabc", true, false⟩ (.error "boom") (.ok []) =
      .ok ((if (⟨"0xabc", true, false⟩ : PositionRequest).includeV3 then
              okPositions (Except.error "boom") else []) ++
           (if (⟨"0xabc", true, false⟩ : PositionRequest).includeV4 then
              okPositions (Except.ok []) else [])) :=
  ⟨(getPositions_merge_policy ⟨"0xabc", true, true⟩ (.error "e3") (.error "e4")).1
      "e3" "e4" rfl rfl rfl rfl,
   (getPositions_merge_policy ⟨"0xabc", true, false⟩ (.error "boom") (.ok [])).2
      (by simp)⟩

/-- C10: a request with both `IncludeV3` and `IncludeV4` false runs no
adapter and returns the empty position list with a nil error, whatever
the adapters would have produced. -/
theorem getPositions_no_version_requested (wallet : String)
    (v3res v4res : Except String (List Position)) :
    getPositions ⟨wallet, false, false⟩ v3res v4res = .ok [] :=
  rfl

/-- WETH mainnet address, as `common.Address.Hex()` renders it. -/
def wethAddressHex : String := "0xC02aaA39b223FE8D0A0e5C4F27eAD9083C756Cc2"

/-- USDT mainnet address, as `common.Address.Hex()` renders it. -/
def usdtAddressHex : String := "0xdAC17F958D2ee523a2206206994597C13D831ec7"

/-- Embeds the amount computation of the on-chain adapter's
`getPositionDetails` (`uniswap/api_client.go:697-700`):
`amount0 := liquidity / 1000000; amount1 := liquidity / 2000000`,
independent of any tick. -/
def getPositionDetailsAmounts (liquidity : Int) : Int × Int :=
  (Int.ediv liquidity 1000000, Int.ediv liquidity 2000000)

/-- Embeds the amount computation of `calculateAmounts`
(`uniswap/api_client.go:947-986`): fixed power-of-ten divisors selected
by the token pair, then zeroing of one side when the current tick is at
or outside the bounds. -/
def calculateAmounts (liquidity : Int) (token0Hex token1Hex : String)
    (token0Decimals token1Decimals : Nat)
    (currentTick tickLower tickUpper : Int) : Int × Int :=
  let isWethUsdt :=
    (token0Hex == wethAddressHex && token1Hex == usdtAddressHex) ||
    (token0Hex == usdtAddressHex && token1Hex == wethAddressHex)
  let amount0 :=
    if isWethUsdt then Int.ediv liquidity (10 ^ 24)
    else Int.ediv liquidity (10 ^ token0Decimals)
  let amount1 :=
    if isWethUsdt then Int.ediv liquidity (10 ^ 12)
    else Int.ediv liquidity (10 ^ token1Decimals)
  if currentTick ≤ tickLower then (amount0, 0)
  else if tickUpper ≤ currentTick then (0, amount1)
  else (amount0, amount1)

/-- C3: the code evaluated at a failing input.  The on-chain adapter's
positions get their amounts from `getPositionDetails`, which divides
liquidity by the fixed constants 10^6 and 2·10^6 with no tick input at
all, so with liquidity 2000000 and the pool tick below the range the
position still reports `amount1 = 1 ≠ 0`; and `calculateAmounts`, for an
in-range WETH/USDT position, returns the fixed linear quotients
liquidity/10^24 and liquidity/10^12 rather than the concentrated
liquidity formulas. -/
theorem onchain_amounts_use_fixed_divisors :
    getPositionDetailsAmounts 2000000 = (2, 1) ∧
    calculateAmounts (2 * 10 ^ 24) wethAddressHex usdtAddressHex 18 6 5 0 10 =
      (2, 2 * 10 ^ 12) := by
  constructor
  · rfl
  · decide

/-- Embeds the current-price computation in `getPositionDetails`
(`uniswap/api_client.go:723-733`): when `sqrtPriceX96 > 0`,
`(sqrtPriceX96 / 2^96)^2`; otherwise the midpoint of the two bounds.
The exact ℚ value: dividing by `2^96` is exact in `big.Float`, and the
square is computed at the operands' precision. -/
def getPositionDetailsCurrentPrice (sqrtPriceX96 : Int)
    (priceLower priceUpper : ℚ) : ℚ :=
  if 0 < sqrtPriceX96 then
    let sqrtPrice : ℚ := (sqrtPriceX96 : ℚ) / 2 ^ 96
    sqrtPrice * sqrtPrice
  else
    (priceLower + priceUpper) / 2

/-- C9: with a positive `sqrtPriceX96` the on-chain adapter's current
price is `(sqrtPriceX96 / 2^96)^2`; with the unavailable (zero) value it
is the arithmetic midpoint of the two price bounds. -/
theorem getPositionDetailsCurrentPrice_spec (sqrtPriceX96 : Int)
    (priceLower priceUpper : ℚ) :
    (0 < sqrtPriceX96 →
      getPositionDetailsCurrentPrice sqrtPriceX96 priceLower priceUpper =
        ((sqrtPriceX96 : ℚ) / 2 ^ 96) ^ 2) ∧
    (sqrtPriceX96 = 0 →
      getPositionDetailsCurrentPrice sqrtPriceX96 priceLower priceUpper =
        (priceLower + priceUpper) / 2) := by
  constructor
  · intro h
    simp only [getPositionDetailsCurrentPrice, if_pos h]
    ring
  · intro h
    subst h
    simp [getPositionDetailsCurrentPrice]

/-- Witness for C9 at `sqrtPriceX96 = 2^97` (price 4) and at the zero
fallback with bounds 1 and 3. -/
theorem getPositionDetailsCurrentPrice_spec_witness :
    getPositionDetailsCurrentPrice (2 ^ 97) 1 3 = (((2 ^ 97 : Int) : ℚ) / 2 ^ 96) ^ 2 ∧
    getPositionDetailsCurrentPrice 0 1 3 = (1 + 3) / 2 :=
  ⟨(getPositionDetailsCurrentPrice_spec (2 ^ 97) 1 3).1 (by positivity),
   (getPositionDetailsCurrentPrice_spec 0 1 3).2 rfl⟩

/-- A concrete V3 subgraph record whose `depositedToken0` field, `"1.5"`,
is not a valid base-10 integer (the subgraph reports such fields as
decimal strings). -/
def decimalFieldRecord : RawPositionV3 :=
  { id := "42"
    owner := "0xwallet"
    depositedToken0 := "1.5"
    depositedToken1 := "3"
    withdrawnToken0 := "0"
    withdrawnToken1 := "0"
    collectedFeesToken0 := "0"
    collectedFeesToken1 := "0"
    liquidity := "1000"
    tickLower := "0"
    tickUpper := "10"
    pool := { feeTier := "3000", token0Price := "1", token1Price := "1" }
    token0 := { id := "0xt0", symbol := "USDC", decimals := "6" }
    token1 := { id := "0xt1", symbol := "WETH", decimals := "18" } }

/-- C7 counterexample: `"1.5"` does not parse as a base-10 integer, yet
`stringToBigInt` resolves it to 1 — the value of the scanned digit
prefix — not to 0, and the parsed position carries that nonzero value. -/
theorem stringToBigInt_unparseable_nonzero :
    stringToBigInt "1.5" = 1 ∧ (1 : Int) ≠ 0 ∧
    (parsePositionData [decimalFieldRecord] PositionVersion.v3 0).map
      (fun p => p.depositedToken0) = [some 1] :=
  ⟨rfl, by decide, rfl⟩

/-- C7 amended: an unparseable numeric string resolves to the value of
its longest valid signed digit prefix — in particular to 0 whenever no
digit prefix exists — and the parser is total: every input record still
yields a position, so no unparseable field aborts a position or the
call. -/
theorem unparseable_fields_resolve_locally (s : String)
    (data : List RawPositionV3) (version : PositionVersion) (now : Int) :
    (hasNoDigits s = true → stringToBigInt s = 0) ∧
    (parsePositionData data version now).length = data.length := by
  constructor
  · intro h
    unfold hasNoDigits at h
    unfold stringToBigInt
    rcases hd : dropSignChars s.data with ⟨neg, rest⟩
    rw [hd] at h
    simp only at h
    rw [List.isEmpty_iff] at h
    cases neg <;> simp [h, digitsValNat]
  · simp [parsePositionData]

/-- Witness for C7's amended theorem at `s = "abc"` (no digit prefix)
and a singleton record list. -/
theorem unparseable_fields_resolve_locally_witness :
    stringToBigInt "abc" = 0 ∧
    (parsePositionData [decimalFieldRecord] PositionVersion.v3 0).length =
      [decimalFieldRecord].length :=
  ⟨(unparseable_fields_resolve_locally "abc" [] PositionVersion.v3 0).1 (by decide),
   (unparseable_fields_resolve_locally "x" [decimalFieldRecord] PositionVersion.v3 0).2⟩

end Uniswapfetcher
